import Mathlib

/-!
Verification development for the MailingListLab newsletter pipeline.

The definitions below are a shallow embedding of the orchestration core of
the repository: the config state and its persistence (server_v2.py),
the Gmail gateway label logic (modules/email/gmail_handler_v2.py),
the candidate selection step of the aggregator (modules/AI/flows.py),
the digest renderer grouping/coloring (modules/email/compose_weekly_email.py),
the schedule computation (server_v2.py, find_and_start_newsletter_timer),
and the poll loop routing (server_v2.py, check_mails).
External calls (Gmail server, Gemini, the scraper) appear as parameters or
as data already cut at the json.loads boundary: an Option value whose none
constructor is the parse/network failure the code catches.
-/

namespace MailingList

/-! ## Config state (server_v2.py, load_setup / check_mails) -/

/-- A JSON value as it appears in configs/setup.json and in config
control mails.  The repository only ever stores booleans, numbers,
strings and lists of strings in these files. -/
inductive JVal where
  | jbool (b : Bool)
  | jnum (n : Nat)
  | jstr (s : String)
  | jlist (l : List String)
  deriving DecidableEq, Repr

/-- The process-wide configuration, i.e. the module-level globals of
server_v2.py that load_setup reads and check_mails mutates. -/
structure Config where
  active : Bool
  days : List String
  releaseTimeStr : String
  secondsBetweenChecks : Nat
  whitelistedSenders : List String
  newsletterEmail : String
  limitNewest : Nat
  deriving DecidableEq, Repr

/-- One key/value pair of a config control mail, after json.loads.
The recognized keys of check_mails become constructors; every other
key is `unknown` and is ignored by the update loop. -/
inductive ConfigMod where
  | setActive (b : Bool)
  | setDays (d : List String)
  | setReleaseTime (s : String)
  | setSeconds (n : Nat)
  | setWhitelist (l : List String)
  | setNewsletterEmail (s : String)
  | setLimitNewest (n : Nat)
  | setSendNow (b : Bool)
  | unknown (key : String) (v : JVal)
  deriving DecidableEq, Repr

/-- One iteration of the `for key, value in new_modifications.items()`
loop of check_mails (server_v2.py lines 258-275).  The Bool component is
the `should_send_now` flag. -/
def applyMod (st : Config × Bool) (m : ConfigMod) : Config × Bool :=
  match m with
  | .setActive b => ({ st.1 with active := b }, st.2)
  | .setDays d => ({ st.1 with days := d }, st.2)
  | .setReleaseTime s => ({ st.1 with releaseTimeStr := s }, st.2)
  | .setSeconds n => ({ st.1 with secondsBetweenChecks := n }, st.2)
  | .setWhitelist l => ({ st.1 with whitelistedSenders := l }, st.2)
  | .setNewsletterEmail s => ({ st.1 with newsletterEmail := s }, st.2)
  | .setLimitNewest n => ({ st.1 with limitNewest := n }, st.2)
  | .setSendNow b => (st.1, b)
  | .unknown _ _ => st

/-- The whole modification loop of check_mails: `should_send_now` starts
False and the recognized keys are applied in payload order. -/
def applyMods (cfg : Config) (mods : List ConfigMod) : Config × Bool :=
  mods.foldl applyMod (cfg, false)

/-- json.dump of the full config dict (server_v2.py lines 280-281):
the file holds exactly these seven keys, in this order. -/
def persistConfig (c : Config) : List (String × JVal) :=
  [("active", .jbool c.active),
   ("days", .jlist c.days),
   ("release_time_str", .jstr c.releaseTimeStr),
   ("seconds_between_checks", .jnum c.secondsBetweenChecks),
   ("whitelisted_senders", .jlist c.whitelistedSenders),
   ("newsletter_email", .jstr c.newsletterEmail),
   ("limit_newest", .jnum c.limitNewest)]

/-- load_setup (server_v2.py lines 60-75): each field is read with
setup.get(key, default); a missing or wrongly-typed entry falls back to
the documented default. -/
def loadSetup (j : List (String × JVal)) : Config :=
  { active := match j.lookup "active" with | some (.jbool b) => b | _ => true
  , days := match j.lookup "days" with | some (.jlist l) => l | _ => []
  , releaseTimeStr := match j.lookup "release_time_str" with | some (.jstr s) => s | _ => ""
  , secondsBetweenChecks := match j.lookup "seconds_between_checks" with | some (.jnum n) => n | _ => 10
  , whitelistedSenders := match j.lookup "whitelisted_senders" with | some (.jlist l) => l | _ => []
  , newsletterEmail := match j.lookup "newsletter_email" with | some (.jstr s) => s | _ => ""
  , limitNewest := match j.lookup "limit_newest" with | some (.jnum n) => n | _ => 10 }

/-! ## String primitives

Character-list models of the Python string methods the code calls
(str.lower, str.upper, str.strip, str.split(":"), int()); they agree
with the originals on the ASCII data the repository handles. -/

/-- Python str.lower, per character. -/
def strLower (s : String) : String := String.mk (s.toList.map Char.toLower)

/-- Python str.upper, per character. -/
def strUpper (s : String) : String := String.mk (s.toList.map Char.toUpper)

/-- Python str.strip: drop whitespace from both ends. -/
def strTrim (s : String) : String :=
  String.mk (((s.toList.dropWhile Char.isWhitespace).reverse.dropWhile
    Char.isWhitespace).reverse)

/-- Python "x" in s for a single character. -/
def strHasChar (s : String) (c : Char) : Bool := s.toList.contains c

/-- str.split(":") over the character list. -/
def splitOnColon : List Char → List (List Char)
  | [] => [[]]
  | c :: rest =>
      if c = ':' then [] :: splitOnColon rest
      else
        match splitOnColon rest with
        | [] => [[c]]
        | g :: gs => (c :: g) :: gs

/-- int() on a digit string: none unless non-empty and all digits. -/
def charsToNat? (cs : List Char) : Option Nat :=
  if cs = [] then none
  else if cs.all Char.isDigit then
    some (cs.foldl (fun n c => n * 10 + (c.toNat - 48)) 0)
  else none

/-! ## Sender address extraction (modules/utils/extract_email_address.py) -/

/-- The group captured by re.search of the pattern matching an angle
bracket pair with a non-empty bracket-free body: scan for the first
opening angle bracket followed by at least one character other than a
closing bracket and then a closing bracket. -/
def angleGroup : List Char → Option (List Char)
  | [] => none
  | c :: cs =>
    if c = '<' then
      let inner := cs.takeWhile (fun x => x ≠ '>')
      if inner.length ≠ 0 ∧ inner.length < cs.length then some inner
      else angleGroup cs
    else angleGroup cs

/-- extract_email_address: strip a display name, returning just the
address part ("Name <a@b.com>" becomes "a@b.com"); a bare address is
returned stripped of surrounding whitespace. -/
def extractEmailAddress (senderString : String) : String :=
  if senderString = "" then ""
  else if strHasChar senderString '<' && strHasChar senderString '>' then
    match angleGroup senderString.toList with
    | some inner => strTrim (String.mk inner)
    | none => strTrim senderString
  else strTrim senderString

/-! ## Ranked articles and the selection step (modules/AI/flows.py) -/

/-- One element of the "news" array returned by the first Gemini
evaluation call: evaluate_articles_gemini's schema requires source,
brief description and relevancy, and the code also reads an ID field. -/
structure RankedArticle where
  idTag : String
  source : String
  briefDescription : String
  relevancy : Nat
  deriving DecidableEq, Repr

/-- The comparison used by `sorted(all_articles, key=lambda x:
x.get("relevancy", 0), reverse=True)`: descending relevancy.  Python's
sorted is a stable sort, which insertionSort with this relation is. -/
def relevDesc (a b : RankedArticle) : Prop := b.relevancy ≤ a.relevancy

instance : DecidableRel relevDesc := fun a b => Nat.decLe b.relevancy a.relevancy

instance : IsTotal RankedArticle relevDesc :=
  ⟨fun a b => Nat.le_total b.relevancy a.relevancy⟩

instance : IsTrans RankedArticle relevDesc :=
  ⟨fun _ _ _ h1 h2 => Nat.le_trans h2 h1⟩

/-- `all_articles = sorted(..., reverse=True)` (flows.py line 289). -/
def sortByRelevancyDesc (l : List RankedArticle) : List RankedArticle :=
  List.insertionSort relevDesc l

/-- The selection step of analyze_emails_newsletter (flows.py lines
288-291): sort by relevancy descending and keep the first five
(`top_5_articles = all_articles[:5]`). -/
def selectTopArticles (l : List RankedArticle) : List RankedArticle :=
  (sortByRelevancyDesc l).take 5

/-! ## Mailbox gateway (modules/email/gmail_handler_v2.py) -/

/-- The system label set shared by all GmailHelper methods. -/
def systemLabels : List String :=
  ["INBOX", "UNREAD", "STARRED", "SENT", "IMPORTANT", "TRASH", "SPAM", "DRAFT"]

/-- One label of the user's mailbox: its display name and its opaque id. -/
structure GmailLabel where
  name : String
  lid : String
  deriving DecidableEq, Repr

/-- One message as the model sees it: the stub id, its label ids, the
parsed headers check_mails reads, and the two failure points of the per
message processing cut at their boundary: parseFails models
parse_email raising, and textMods models json.loads of the body of a
config mail (none is a JSONDecodeError). -/
structure MailMsg where
  msgId : String
  labelIds : List String
  sender : String
  title : String
  textMods : Option (List ConfigMod)
  parseFails : Bool
  deriving DecidableEq, Repr

/-- The remote mailbox: its messages and the user's label list. -/
structure Mailbox where
  msgs : List MailMsg
  labels : List GmailLabel
  deriving DecidableEq, Repr

/-- _get_labels_indexed_by_name: lower-cased label name to label id;
lookup returns the first label carrying the queried name. -/
def labelIndexLookup (mb : Mailbox) (nameLower : String) : Option String :=
  (mb.labels.map (fun l => (strLower l.name, l.lid))).lookup nameLower

/-- _ensure_label_id: return the id of the named label, creating the
label when it is missing.  The Gmail server assigns the fresh id; the
model makes that id a deterministic function of the name. -/
def ensureLabelId (mb : Mailbox) (labelName : String) : Mailbox × String :=
  match labelIndexLookup mb (strLower labelName) with
  | some lid => (mb, lid)
  | none =>
      let newId := "Label_" ++ labelName
      ({ mb with labels := mb.labels ++ [⟨labelName, newId⟩] }, newId)

/-- Label-name resolution as list_emails performs it: a system label
name is upper-cased and used directly, any other name is looked up in
the user's label index. -/
def resolveLabelName (mb : Mailbox) (name : String) : Option String :=
  if strUpper name ∈ systemLabels then some (strUpper name)
  else labelIndexLookup mb (strLower name)

/-- The include_labels loop of list_emails (lines 129-146): resolve
every required label; none models the early `return []` taken when a
required label does not exist. -/
def resolveInclude (mb : Mailbox) : List String → Option (List String)
  | [] => some []
  | n :: ns =>
      match resolveLabelName mb n with
      | none => none
      | some lid => (resolveInclude mb ns).map (fun rest => lid :: rest)

/-- Insert a label id into a message's id set, Gmail style (adding a
label the message already has changes nothing). -/
def addLabelId (ids : List String) (lid : String) : List String :=
  if lid ∈ ids then ids else ids ++ [lid]

/-- update_email_state restricted to labels_to_add, the only use the
repository makes of it: resolve each name (creating user labels on
demand via _ensure_label_id) and add the ids to the message. -/
def updateEmailState (mb : Mailbox) (msgId : String) (labelsToAdd : List String) : Mailbox :=
  match labelsToAdd with
  | [] => mb
  | n :: ns =>
      let r :=
        if strUpper n ∈ systemLabels then (mb, strUpper n)
        else ensureLabelId mb n
      let mb2 : Mailbox :=
        { r.1 with msgs := r.1.msgs.map (fun m =>
            if m.msgId = msgId then { m with labelIds := addLabelId m.labelIds r.2 } else m) }
      updateEmailState mb2 msgId ns

/-- archive_email: remove the INBOX label. -/
def archiveEmail (mb : Mailbox) (msgId : String) : Mailbox :=
  { mb with msgs := mb.msgs.map (fun m =>
      if m.msgId = msgId then { m with labelIds := m.labelIds.filter (fun l => l ≠ "INBOX") } else m) }

/-- Outcome of a list_emails call: whether the Gmail server was queried
at all, and the returned stubs. -/
structure ListResult where
  queried : Bool
  result : List MailMsg
  deriving DecidableEq, Repr

/-- list_emails restricted to its label logic.  `base` abstracts the
date-range, read-status, archived-status and sender query parts, which
are orthogonal conjuncts of the Gmail query string.  An unresolvable
include label short-circuits to an empty result without issuing any
query; an unresolvable exclude label is silently dropped from the
query; a resolvable exclude label removes every message carrying it. -/
def listEmails (mb : Mailbox) (base : MailMsg → Bool)
    (includeLabels excludeLabels : List String) : ListResult :=
  match resolveInclude mb includeLabels with
  | none => ⟨false, []⟩
  | some incIds =>
      ⟨true, mb.msgs.filter (fun m =>
        base m && incIds.all (fun i => m.labelIds.contains i)
               && (excludeLabels.filterMap (resolveLabelName mb)).all
                    (fun i => !(m.labelIds.contains i)))⟩

/-! ## Digest renderer (modules/email/compose_weekly_email.py)

The HTML text itself is a pure string-formatting concern; the model
renders to a structure carrying exactly the data the templates
interpolate: which color each article border gets, which category
section each article lands in, and each section's header color. -/

/-- The category_colors table of configs/mail_configs.json. -/
abbrev ColorTable := List (String × String)

/-- One article record as divide_news_gemini returns it and
generate_article consumes it: category, contact and image are the keys
the renderer reads with a guard or a default. -/
structure Article where
  title : String
  source : String
  location : String
  contact : Option String
  description : String
  summary : String
  category : Option String
  link : String
  image : Option String
  deriving DecidableEq, Repr

/-- `category = article.get("category", "Other")`. -/
def articleCategory (a : Article) : String := a.category.getD "Other"

/-- `self.category_colors.get(category, self.category_colors["Other"])`:
none models the KeyError raised when the fallback key "Other" is itself
absent from the color table. -/
def borderColor (colors : ColorTable) (category : String) : Option String :=
  match colors.lookup category with
  | some c => some c
  | none => colors.lookup "Other"

/-- The data generate_article interpolates into its article block. -/
structure RenderedArticle where
  border : String
  category : String
  title : String
  source : String
  location : String
  contact : Option String
  description : String
  summary : String
  link : String
  deriving DecidableEq, Repr

/-- generate_article: pick the border color (falling back to the Other
color) and fill the block; none propagates the KeyError. -/
def generateArticle (colors : ColorTable) (a : Article) : Option RenderedArticle :=
  match borderColor colors (articleCategory a) with
  | none => none
  | some b =>
      some { border := b, category := articleCategory a, title := a.title,
             source := a.source, location := a.location, contact := a.contact,
             description := a.description, summary := a.summary, link := a.link }

/-- The data generate_category_section produces: the section's colored
header and its article blocks, in input order. -/
structure CategorySection where
  headerColor : String
  category : String
  articles : List RenderedArticle
  deriving DecidableEq, Repr

/-- generate_category_section: header color via the same fallback
lookup, then every article of the group. -/
def generateCategorySection (colors : ColorTable) (category : String)
    (arts : List Article) : Option CategorySection :=
  match borderColor colors category with
  | none => none
  | some hc =>
      match arts.mapM (generateArticle colors) with
      | none => none
      | some ras => some ⟨hc, category, ras⟩

/-- The grouping of generate_email: articles_by_category is keyed by
article.get("category", "Other") in insertion order, and the keys are
then visited in sorted order. -/
def groupByCategory (articles : List Article) : List (String × List Article) :=
  let keys := List.insertionSort (fun a b : String => a ≤ b)
    ((articles.map articleCategory).dedup)
  keys.map (fun k => (k, articles.filter (fun a => articleCategory a = k)))

/-- generate_email: one section per distinct category key, sorted by
key; none propagates a color-table KeyError out of the generator. -/
def generateEmail (colors : ColorTable) (articles : List Article) :
    Option (List CategorySection) :=
  (groupByCategory articles).mapM (fun g => generateCategorySection colors g.1 g.2)

/-! ## Candidate aggregator (modules/AI/flows.py, analyze_emails_newsletter)
and the newsletter job (server_v2.py, create_news_letter) -/

/-- The json.loads result of the first Gemini call
(evaluate_articles_gemini): the parsed object's "news" array.  The
callers pass the whole call cut at the parse boundary: none is a
JSONDecodeError. -/
structure EvalResponse where
  news : List RankedArticle
  deriving DecidableEq, Repr

/-- The json.loads result of the second Gemini call
(divide_news_gemini), likewise cut at the parse boundary. -/
structure DivideResponse where
  news : List Article
  deriving DecidableEq, Repr

/-- analyze_emails_newsletter (flows.py lines 280-346) over the
structure of its two external calls: a JSONDecodeError on the first
response returns []; otherwise the articles are sorted by relevancy,
the top five are kept, their enriched blob is sent to the second call,
and a JSONDecodeError there also returns []. -/
def analyzeEmailsNewsletter (evalResp : Option EvalResponse)
    (divide : List RankedArticle → Option DivideResponse) : List Article :=
  match evalResp with
  | none => []
  | some ev =>
      match divide (selectTopArticles ev.news) with
      | none => []
      | some d => d.news

/-- What one create_news_letter run did: the aggregated articles, the
rendered digest (none when the renderer raised and the outer except
swallowed it), and whether send_email_html was invoked. -/
structure NewsletterRun where
  articles : List Article
  rendered : Option (List CategorySection)
  sendCalled : Bool

/-- create_news_letter (server_v2.py lines 128-198), with the mailbox
intake already folded into the aggregator's input: aggregate, render,
then send unless send_mail is false or newsletter_email is empty.  The
function contains no empty-articles check: an empty aggregation still
renders and, when a recipient is configured, is still sent. -/
def createNewsLetter (colors : ColorTable) (newsletterEmail : String) (sendMail : Bool)
    (evalResp : Option EvalResponse)
    (divide : List RankedArticle → Option DivideResponse) : NewsletterRun :=
  let articles := analyzeEmailsNewsletter evalResp divide
  match generateEmail colors articles with
  | none => ⟨articles, none, false⟩
  | some doc => ⟨articles, some doc, sendMail && !(newsletterEmail == "")⟩

/-- The per-message intake loop of create_news_letter (server_v2.py
lines 152-175): parse each candidate, collect it and label it ANALYZED;
the per-message try/except logs a failure and continues with the next
message, so one unparsable message skips only itself. -/
def newsletterIntake (mb : Mailbox) : List MailMsg → Mailbox × List MailMsg
  | [] => (mb, [])
  | m :: rest =>
      if m.parseFails then newsletterIntake mb rest
      else
        let r := newsletterIntake (updateEmailState mb m.msgId ["ANALYZED"]) rest
        (r.1, m :: r.2)

/-! ## Schedule computation (server_v2.py, find_and_start_newsletter_timer) -/

/-- A wall-clock instant: an absolute day count whose day zero is a
Monday (so day mod 7 matches Python's weekday()), and the second of the
day. -/
structure Instant where
  day : Nat
  sec : Nat
  deriving DecidableEq, Repr

/-- Seconds since the reference midnight, for comparing instants. -/
def Instant.toSec (t : Instant) : Nat := t.day * 86400 + t.sec

/-- The weekdays list of find_and_start_newsletter_timer, in Python
weekday() order. -/
def weekdays : List String :=
  ["Monday", "Tuesday", "Wednesday", "Thursday", "Friday", "Saturday", "Sunday"]

/-- strftime("%A") of a given absolute day. -/
def dayName (d : Nat) : String := weekdays.getD (d % 7) ""

/-- datetime.strptime(release_time_str, "%H:%M:%S").time() as seconds
since midnight; none models the ValueError the except swallows. -/
def parseTimeHMS (s : String) : Option Nat :=
  match splitOnColon s.toList with
  | [h, m, sec] =>
      match charsToNat? h, charsToNat? m, charsToNat? sec with
      | some hn, some mn, some sn =>
          if hn < 24 && mn < 60 && sn < 60 then some (hn * 3600 + mn * 60 + sn) else none
      | _, _, _ => none
  | _ => none

/-- The `for offset in range(1, 8)` scan: the first offset whose
weekday name is in the configured days, none when the configuration
holds no valid day name. -/
def findOffset (today : Nat) (days : List String) : Option Nat :=
  (List.range' 1 7).find? (fun k => (dayName (today + k)) ∈ days)

/-- The target computation of find_and_start_newsletter_timer
(server_v2.py lines 315-366): none means no timer is armed (inactive,
incomplete config, unparsable release time, or no valid day). -/
def findNextFire (active : Bool) (days : List String) (releaseTimeStr : String)
    (now : Instant) : Option Instant :=
  if active = false then none
  else if releaseTimeStr = "" ∨ days = [] then none
  else
    match parseTimeHMS releaseTimeStr with
    | none => none
    | some target =>
        if dayName now.day ∈ days ∧ now.sec < target then
          some ⟨now.day, target⟩
        else
          match findOffset now.day days with
          | none => none
          | some k => some ⟨now.day + k, target⟩

/-! ## Poll loop routing (server_v2.py, check_mails) -/

/-- The full mutable server state one check_mails invocation reads and
writes: the config globals, the setup.json content, the mailbox, and
whether the newsletter_timer_thread variable holds a Timer object. -/
structure PollState where
  config : Config
  store : List (String × JVal)
  mailbox : Mailbox
  timerHandle : Bool
  deriving DecidableEq, Repr

/-- The externally visible actions a message's processing performs, in
program order. -/
inductive Action where
  | persisted
  | labelAdded (msgId label : String)
  | archived (msgId : String)
  | timerCancelled
  | rearmed
  | sendNowStarted
  | repostSpawned (msgId : String)
  deriving DecidableEq, Repr

/-- The two exceptions the per-message body of check_mails can raise;
the loop has no per-message handler, so either one propagates. -/
inductive StepError where
  | parseFailed
  | configJsonInvalid
  deriving DecidableEq, Repr

/-- The body of the `for msg in msgs` loop of check_mails (server_v2.py
lines 236-312) for one message: parse, extract the sender address, then
route to the config branch (mutate + persist + tag + archive + timer
handling), the repost branch (spawn + archive), or the
non-whitelisted branch (tag NOT_WHITELISTED and continue).
find_and_start_newsletter_timer runs only under
`elif newsletter_timer_thread:`; the cancel call leaves the (truthy)
Timer object in the variable, so timerHandle is unchanged. -/
def processOneMail (st : PollState) (m : MailMsg) :
    Except StepError (PollState × List Action) :=
  if m.parseFails then .error .parseFailed
  else
    let senderEmail := extractEmailAddress m.sender
    if senderEmail ∈ st.config.whitelistedSenders then
      if strLower m.title = "config" then
        match m.textMods with
        | none => .error .configJsonInvalid
        | some mods =>
            let cfg1 := (applyMods st.config mods).1
            let sendNow := (applyMods st.config mods).2
            let store1 := persistConfig cfg1
            let mb1 := updateEmailState st.mailbox m.msgId ["ANALYZED"]
            let mb2 := archiveEmail mb1 m.msgId
            let baseActs := [Action.persisted, Action.labelAdded m.msgId "ANALYZED",
                             Action.archived m.msgId]
            let st1 : PollState :=
              { config := cfg1, store := store1, mailbox := mb2, timerHandle := st.timerHandle }
            if sendNow then
              .ok (st1, baseActs
                    ++ (if st.timerHandle then [Action.timerCancelled] else [])
                    ++ [Action.sendNowStarted])
            else if st.timerHandle then
              .ok (st1, baseActs ++ [Action.timerCancelled, Action.rearmed])
            else
              .ok (st1, baseActs)
      else
        .ok ({ st with mailbox := archiveEmail st.mailbox m.msgId },
             [Action.repostSpawned m.msgId, Action.archived m.msgId])
    else
      .ok ({ st with mailbox := updateEmailState st.mailbox m.msgId ["NOT_WHITELISTED"] },
           [Action.labelAdded m.msgId "NOT_WHITELISTED"])

/-- The `for msg in msgs` loop itself: no per-message handler exists,
so the first raised exception aborts the processing of every remaining
message of the invocation (the caller check_mails_loop only catches it
outside). -/
def processMails (st : PollState) : List MailMsg → Except StepError (PollState × List Action)
  | [] => .ok (st, [])
  | m :: rest =>
      match processOneMail st m with
      | .error e => .error e
      | .ok (st1, acts) =>
          match processMails st1 rest with
          | .error e => .error e
          | .ok (st2, acts2) => .ok (st2, acts ++ acts2)

/-! ## Helper lemmas -/

instance {e a : Type} [DecidableEq e] [DecidableEq a] : DecidableEq (Except e a) :=
  fun x y =>
    match x, y with
    | .ok v, .ok w =>
        if h : v = w then isTrue (by rw [h]) else isFalse (fun hh => by cases hh; exact h rfl)
    | .error v, .error w =>
        if h : v = w then isTrue (by rw [h]) else isFalse (fun hh => by cases hh; exact h rfl)
    | .ok _, .error _ => isFalse (fun hh => by cases hh)
    | .error _, .ok _ => isFalse (fun hh => by cases hh)

/-- The success flag of one loop-body outcome. -/
def stepSucceeded (r : Except StepError (PollState × List Action)) : Bool :=
  match r with
  | .ok _ => true
  | .error _ => false

/-- The actions of one loop-body outcome. -/
def actionsOf (r : Except StepError (PollState × List Action)) : List Action :=
  match r with
  | .ok (_, acts) => acts
  | .error _ => []

/-! ## Claims -/

/-- C7 is confirmed: applying an empty control payload leaves the config
unchanged, and the persist/load round trip through configs/setup.json
returns every field bit-for-bit equal to its value before the mutation. -/
theorem claim_c7_empty_mutation_roundtrip (cfg : Config) :
    loadSetup (persistConfig (applyMods cfg []).1) = cfg := by
  cases cfg
  rfl

/-- C1 fails on the code: with a classification response that is not
valid JSON the Aggregator does return the empty list, but
create_news_letter has no empty-articles guard, so with a configured
recipient the digest-send step still runs: send_email_html is called
with the rendered empty digest. -/
theorem claim_c1_counterexample :
    analyzeEmailsNewsletter none (fun _ => none) = [] ∧
    (createNewsLetter [("Other", "#999999")] "news@example.com" true none
      (fun _ => none)).sendCalled = true :=
  ⟨rfl, rfl⟩

/-- C1 amended: on an invalid-JSON classification response the
Aggregator returns the empty list, and the send step is skipped only
when send_mail is false or newsletter_email is empty — it is not
skipped because the article list is empty. -/
theorem claim_c1_amended (colors : ColorTable) (email : String) (sendMail : Bool)
    (divide : List RankedArticle → Option DivideResponse) :
    analyzeEmailsNewsletter none divide = [] ∧
    (createNewsLetter colors email sendMail none divide).sendCalled
      = (sendMail && !(email == "")) := by
  exact ⟨rfl, rfl⟩

/-- C2 fails on the code: the selection step keeps the top five by
relevancy with no source-uniqueness constraint, so two articles sharing
a source are both selected. -/
theorem claim_c2_counterexample :
    selectTopArticles
        [⟨"ARTICLE_0", "SrcA", "d0", 90⟩, ⟨"ARTICLE_1", "SrcA", "d1", 80⟩]
      = [⟨"ARTICLE_0", "SrcA", "d0", 90⟩, ⟨"ARTICLE_1", "SrcA", "d1", 80⟩] ∧
    (⟨"ARTICLE_0", "SrcA", "d0", 90⟩ : RankedArticle).source
      = (⟨"ARTICLE_1", "SrcA", "d1", 80⟩ : RankedArticle).source ∧
    (⟨"ARTICLE_0", "SrcA", "d0", 90⟩ : RankedArticle)
      ≠ (⟨"ARTICLE_1", "SrcA", "d1", 80⟩ : RankedArticle) := by
  refine ⟨by decide, rfl, by decide⟩

/-- C2 amended: the selection step applies no source filter at all:
whenever at most five articles are produced by the first pass, the
selection is a permutation of the whole input — later articles from an
already-used source are selected too, not skipped. -/
theorem claim_c2_amended (l : List RankedArticle) (h : l.length ≤ 5) :
    List.Perm (selectTopArticles l) l := by
  unfold selectTopArticles sortByRelevancyDesc
  rw [List.take_of_length_le (by rw [List.length_insertionSort]; exact h)]
  exact List.perm_insertionSort relevDesc l

/-- Witness for the amended C2 at a concrete run with a duplicated
source among only two candidates. -/
theorem claim_c2_amended_witness :
    List.Perm (selectTopArticles [⟨"A0", "S", "", 5⟩, ⟨"A1", "S", "", 7⟩])
      [⟨"A0", "S", "", 5⟩, ⟨"A1", "S", "", 7⟩] :=
  claim_c2_amended [⟨"A0", "S", "", 5⟩, ⟨"A1", "S", "", 7⟩] (by decide)

/-- The spec's own truncation scenario: seven ranked articles over
three distinct sources. -/
def sevenArticlesThreeSources : List RankedArticle :=
  [⟨"A0", "S1", "", 10⟩, ⟨"A1", "S1", "", 20⟩, ⟨"A2", "S1", "", 30⟩,
   ⟨"A3", "S2", "", 40⟩, ⟨"A4", "S2", "", 50⟩,
   ⟨"A5", "S3", "", 60⟩, ⟨"A6", "S3", "", 70⟩]

/-- C6 fails on the code: with seven articles over three distinct
sources and the cap of five, the selection returns five articles, not
min(cap, distinct-source-count) = 3. -/
theorem claim_c6_counterexample :
    (selectTopArticles sevenArticlesThreeSources).length = 5 ∧
    ((sevenArticlesThreeSources.map RankedArticle.source).dedup).length = 3 ∧
    (5 : Nat) ≠ min 5 3 := by
  decide

/-- C6 amended: the selection returns exactly min(5, number of input
articles) items, sorted descending by relevancy score; the
distinct-source count plays no role. -/
theorem claim_c6_amended (l : List RankedArticle) :
    (selectTopArticles l).length = min 5 l.length ∧
    List.Sorted relevDesc (selectTopArticles l) := by
  constructor
  · unfold selectTopArticles sortByRelevancyDesc
    rw [List.length_take, List.length_insertionSort]
  · exact List.Pairwise.sublist (List.take_sublist 5 _)
      (List.sorted_insertionSort relevDesc l)

/-- An include label that resolves to nothing makes the whole include
resolution fail, regardless of the other labels requested. -/
theorem resolveInclude_eq_none_of_mem (mb : Mailbox) (name : String)
    (hres : resolveLabelName mb name = none) :
    ∀ inc : List String, name ∈ inc → resolveInclude mb inc = none := by
  intro inc
  induction inc with
  | nil => intro h; cases h
  | cons n ns ih =>
      intro h
      unfold resolveInclude
      rcases List.mem_cons.mp h with h1 | h1
      · rw [h1] at hres
        rw [hres]
      · cases hr : resolveLabelName mb n with
        | none => rfl
        | some lid => rw [ih h1]; rfl

/-- C10 is confirmed: when include_labels holds a name that is neither
a system label nor an existing user label, list_emails returns the
empty list without issuing any mailbox query. -/
theorem claim_c10_missing_include_label (mb : Mailbox) (base : MailMsg → Bool)
    (includeLabels excludeLabels : List String) (name : String)
    (hmem : name ∈ includeLabels)
    (hsys : strUpper name ∉ systemLabels)
    (husr : labelIndexLookup mb (strLower name) = none) :
    listEmails mb base includeLabels excludeLabels = ⟨false, []⟩ := by
  have hres : resolveLabelName mb name = none := by
    unfold resolveLabelName
    rw [if_neg hsys]
    exact husr
  unfold listEmails
  rw [resolveInclude_eq_none_of_mem mb name hres includeLabels hmem]

/-- Witness for C10: requiring the nonexistent label "NOPE" on an empty
mailbox yields an unqueried empty result. -/
theorem claim_c10_witness :
    listEmails ⟨[], []⟩ (fun _ => true) ["NOPE"] [] = ⟨false, []⟩ :=
  claim_c10_missing_include_label ⟨[], []⟩ (fun _ => true) ["NOPE"] [] "NOPE"
    (by decide) (by decide) rfl

/-- A poll state for the counterexamples: one whitelisted sender, no
timer handle. -/
def plainState : PollState :=
  { config := ⟨true, ["Monday"], "12:00:00", 10, ["a@b.c"], "n@x.com", 10⟩
  , store := persistConfig ⟨true, ["Monday"], "12:00:00", 10, ["a@b.c"], "n@x.com", 10⟩
  , mailbox := ⟨[], []⟩
  , timerHandle := false }

/-- A message whose parse_email call raises. -/
def failingMsg : MailMsg := ⟨"b1", ["INBOX"], "x@y.z", "news", none, true⟩

/-- A later, perfectly parsable message of the same poll cycle. -/
def laterMsg : MailMsg := ⟨"g1", ["INBOX"], "Eve <eve@evil.com>", "hi", none, false⟩

/-- C5 fails on the code: the for loop of check_mails has no
per-message handler, so the exception raised while fetching/parsing the
first message aborts the whole invocation — the second message, which
on its own would be processed fine, is never reached. -/
theorem claim_c5_counterexample :
    processMails plainState [failingMsg, laterMsg] = .error .parseFailed ∧
    laterMsg.parseFails = false ∧
    stepSucceeded (processOneMail plainState laterMsg) = true := by
  decide

/-- C5 amended: per-message failure isolation holds in the newsletter
intake loop of create_news_letter, whose per-message try/except logs
and continues: every parsable message is still collected no matter how
many earlier messages of the same invocation fail.  In check_mails
itself a per-message failure aborts the remaining messages of that
invocation. -/
theorem claim_c5_amended (msgs : List MailMsg) (mb : Mailbox) (m : MailMsg)
    (hm : m ∈ msgs) (hp : m.parseFails = false) :
    m ∈ (newsletterIntake mb msgs).2 := by
  induction msgs generalizing mb with
  | nil => cases hm
  | cons x xs ih =>
      unfold newsletterIntake
      rcases List.mem_cons.mp hm with h1 | h1
      · subst h1
        rw [hp]
        simp only [Bool.false_eq_true, if_false]
        exact List.mem_cons_self _ _
      · cases hxp : x.parseFails with
        | true => simp only [if_true]; exact ih mb h1
        | false =>
            simp only [Bool.false_eq_true, if_false]
            exact List.mem_cons_of_mem _ (ih _ h1)

/-- Witness for the amended C5: the parsable second message survives a
failing first message in the newsletter intake loop. -/
theorem claim_c5_amended_witness :
    laterMsg ∈ (newsletterIntake ⟨[], []⟩ [failingMsg, laterMsg]).2 :=
  claim_c5_amended [failingMsg, laterMsg] ⟨[], []⟩ laterMsg (by decide) rfl

/-- A valid config control mail that does not request send_now. -/
def configMsgNoSendNow : MailMsg :=
  ⟨"m2", ["INBOX"], "a@b.c", "Config", some [ConfigMod.setDays ["Friday"]], false⟩

/-- C4 fails on the code: the rearm lives under
`elif newsletter_timer_thread:`, so a valid config mutation without
send_now performed while no timer handle exists triggers no recompute
and no rearm at all. -/
theorem claim_c4_counterexample :
    extractEmailAddress configMsgNoSendNow.sender
        ∈ plainState.config.whitelistedSenders ∧
    strLower configMsgNoSendNow.title = "config" ∧
    configMsgNoSendNow.textMods = some [ConfigMod.setDays ["Friday"]] ∧
    (applyMods plainState.config [ConfigMod.setDays ["Friday"]]).2 = false ∧
    stepSucceeded (processOneMail plainState configMsgNoSendNow) = true ∧
    Action.rearmed ∉ actionsOf (processOneMail plainState configMsgNoSendNow) ∧
    Action.timerCancelled ∉ actionsOf (processOneMail plainState configMsgNoSendNow) := by
  decide

/-- C4 amended: after a valid config mutation that does not request
send_now, the pending timer is cancelled and the schedule is recomputed
and rearmed, provided the timer-handle variable holds a timer; with no
timer handle the mutation triggers no recompute. -/
theorem claim_c4_amended (st : PollState) (m : MailMsg) (mods : List ConfigMod)
    (hp : m.parseFails = false)
    (hw : extractEmailAddress m.sender ∈ st.config.whitelistedSenders)
    (ht : strLower m.title = "config")
    (hm : m.textMods = some mods)
    (hs : (applyMods st.config mods).2 = false)
    (htimer : st.timerHandle = true) :
    processOneMail st m =
      .ok ({ config := (applyMods st.config mods).1
           , store := persistConfig (applyMods st.config mods).1
           , mailbox := archiveEmail (updateEmailState st.mailbox m.msgId ["ANALYZED"]) m.msgId
           , timerHandle := st.timerHandle },
           [Action.persisted, Action.labelAdded m.msgId "ANALYZED",
            Action.archived m.msgId, Action.timerCancelled, Action.rearmed]) := by
  unfold processOneMail
  rw [hp]
  simp only [Bool.false_eq_true, if_false]
  rw [if_pos hw, if_pos ht, hm]
  simp only [hs, Bool.false_eq_true, if_false, htimer, if_true]
  rfl

/-- Witness for the amended C4: the same config mail processed while a
timer handle is armed cancels it and rearms. -/
theorem claim_c4_amended_witness :
    processOneMail { plainState with timerHandle := true } configMsgNoSendNow =
      .ok ({ config := (applyMods plainState.config [ConfigMod.setDays ["Friday"]]).1
           , store := persistConfig (applyMods plainState.config [ConfigMod.setDays ["Friday"]]).1
           , mailbox := archiveEmail
               (updateEmailState plainState.mailbox configMsgNoSendNow.msgId ["ANALYZED"])
               configMsgNoSendNow.msgId
           , timerHandle := true },
           [Action.persisted, Action.labelAdded configMsgNoSendNow.msgId "ANALYZED",
            Action.archived configMsgNoSendNow.msgId, Action.timerCancelled,
            Action.rearmed]) :=
  claim_c4_amended { plainState with timerHandle := true } configMsgNoSendNow
    [ConfigMod.setDays ["Friday"]] rfl (by decide) (by decide) rfl rfl rfl

/-- The renderer color table used by the C9 counterexample, holding the
default bucket entry. -/
def sampleColors : ColorTable := [("AI", "#123456"), ("Other", "#999999")]

/-- An article whose category is present but outside the color table. -/
def quantumArticle : Article :=
  ⟨"T", "S", "L", none, "D", "Sum", some "Quantum", "http://x", none⟩

/-- C9 fails on the code: an article with unknown category "Quantum" is
rendered with the Other color, but it is not mapped into the "Other"
bucket — generate_email groups it under its own literal category, which
becomes its own section. -/
theorem claim_c9_counterexample :
    generateEmail sampleColors [quantumArticle] =
      some [⟨"#999999", "Quantum",
             [⟨"#999999", "Quantum", "T", "S", "L", none, "D", "Sum", "http://x"⟩]⟩] ∧
    "Quantum" ≠ "Other" := by
  constructor
  · rfl
  · decide

/-- C9 amended: an article whose category is absent from the color
table is rendered with the Other color and rendering never raises
(provided the table holds its "Other" entry, as the shipped
mail_configs.json does), but the article keeps its own category as its
bucket: generate_email puts it in a section named after the unknown
category, not in the "Other" section. -/
theorem claim_c9_amended (colors : ColorTable) (a : Article) (oc : String)
    (hOther : colors.lookup "Other" = some oc)
    (hUnknown : colors.lookup (articleCategory a) = none) :
    generateEmail colors [a] =
      some [⟨oc, articleCategory a,
             [⟨oc, articleCategory a, a.title, a.source, a.location, a.contact,
               a.description, a.summary, a.link⟩]⟩] := by
  have hcolor : borderColor colors (articleCategory a) = some oc := by
    unfold borderColor
    rw [hUnknown, hOther]
  simp [generateEmail, groupByCategory, generateCategorySection, generateArticle,
        hcolor, List.insertionSort, List.orderedInsert, List.mapM.loop]

/-- Witness for the amended C9 on a concrete table and article. -/
theorem claim_c9_amended_witness :
    generateEmail [("Other", "#9")]
        [⟨"t", "s", "l", none, "d", "m", some "X", "u", none⟩] =
      some [⟨"#9", articleCategory ⟨"t", "s", "l", none, "d", "m", some "X", "u", none⟩,
             [⟨"#9", articleCategory ⟨"t", "s", "l", none, "d", "m", some "X", "u", none⟩,
               "t", "s", "l", none, "d", "m", "u"⟩]⟩] :=
  claim_c9_amended [("Other", "#9")] ⟨"t", "s", "l", none, "d", "m", some "X", "u", none⟩
    "#9" rfl rfl

/-- Lookup skips over an association-list prefix in which the key does
not occur. -/
theorem lookup_append_of_none {a b : Type} [BEq a] (l1 l2 : List (a × b)) (k : a)
    (h : l1.lookup k = none) : (l1 ++ l2).lookup k = l2.lookup k := by
  induction l1 with
  | nil => rfl
  | cons p ps ih =>
      rcases p with ⟨x, y⟩
      rw [List.cons_append]
      simp only [List.lookup] at h ⊢
      cases hx : (k == x) with
      | true => rw [hx] at h; cases h
      | false =>
          rw [hx] at h
          simp only [hx]
          exact ih h

/-- The label added by a non-system updateEmailState call stays
resolvable: after ensure, looking the name up yields the very id that
was attached. -/
theorem ensureLabelId_lookup (mb : Mailbox) (n : String) :
    labelIndexLookup (ensureLabelId mb n).1 (strLower n) = some (ensureLabelId mb n).2 ∧
    (ensureLabelId mb n).1.msgs = mb.msgs := by
  unfold ensureLabelId
  cases h : labelIndexLookup mb (strLower n) with
  | some lid => exact ⟨h, rfl⟩
  | none =>
      constructor
      · unfold labelIndexLookup at h ⊢
        simp only [List.map_append, List.map_cons, List.map_nil]
        rw [lookup_append_of_none _ _ _ h]
        simp [List.lookup]
      · rfl

/-- The inserted label id is a member of the updated id set. -/
theorem mem_addLabelId (ids : List String) (lid : String) : lid ∈ addLabelId ids lid := by
  unfold addLabelId
  split
  · assumption
  · exact List.mem_append_right _ (List.mem_singleton.mpr rfl)

/-- Tagging one non-system label: afterwards the label name resolves to
some id L, and every copy of the tagged message carries L. -/
theorem updateEmailState_single (mb : Mailbox) (msgId : String) (n : String)
    (hns : strUpper n ∉ systemLabels) :
    ∃ L, labelIndexLookup (updateEmailState mb msgId [n]) (strLower n) = some L ∧
      ∀ msg ∈ (updateEmailState mb msgId [n]).msgs, msg.msgId = msgId → L ∈ msg.labelIds := by
  obtain ⟨hlook, _⟩ := ensureLabelId_lookup mb n
  refine ⟨(ensureLabelId mb n).2, ?_, ?_⟩
  · unfold updateEmailState
    rw [if_neg hns]
    unfold updateEmailState
    unfold labelIndexLookup at hlook ⊢
    exact hlook
  · intro msg hmsg heq
    unfold updateEmailState at hmsg
    rw [if_neg hns] at hmsg
    unfold updateEmailState at hmsg
    simp only [List.mem_map] at hmsg
    obtain ⟨m0, _, hm0⟩ := hmsg
    by_cases hid : m0.msgId = msgId
    · rw [← hm0]
      simp only [hid, if_true]
      exact mem_addLabelId m0.labelIds (ensureLabelId mb n).2
    · rw [← hm0] at heq
      simp only [hid, if_false] at heq

/-- A message carrying the id of a resolvable excluded label never
appears in a list_emails result that excludes that label. -/
theorem listEmails_excluded (mb : Mailbox) (base : MailMsg → Bool) (inc exc : List String)
    (name L : String) (hname : name ∈ exc) (hres : resolveLabelName mb name = some L)
    (m2 : MailMsg) (hm2 : m2 ∈ (listEmails mb base inc exc).result) :
    L ∉ m2.labelIds := by
  unfold listEmails at hm2
  cases hinc : resolveInclude mb inc with
  | none => rw [hinc] at hm2; cases hm2
  | some incIds =>
      rw [hinc] at hm2
      have h2 := (List.mem_filter.mp hm2).2
      simp only [Bool.and_eq_true] at h2
      have hexcall := h2.2
      have hLmem : L ∈ exc.filterMap (resolveLabelName mb) :=
        List.mem_filterMap.mpr ⟨name, hname, hres⟩
      have hnc := List.all_eq_true.mp hexcall L hLmem
      rw [Bool.not_eq_true'] at hnc
      intro habs
      have hc : m2.labelIds.contains L = true := List.elem_iff.mpr habs
      rw [hc] at hnc
      cases hnc

/-- C8 is confirmed: a message whose extracted sender is not
whitelisted is tagged NOT_WHITELISTED without aborting the loop, and
every later list_emails call excluding that label omits the message, so
it is never reprocessed. -/
theorem claim_c8_unauthorized_tagged (st : PollState) (m : MailMsg) (base : MailMsg → Bool)
    (inc exc : List String) (m2 : MailMsg)
    (hp : m.parseFails = false)
    (hw : extractEmailAddress m.sender ∉ st.config.whitelistedSenders)
    (hexc : "NOT_WHITELISTED" ∈ exc) :
    processOneMail st m =
      .ok ({ st with mailbox := updateEmailState st.mailbox m.msgId ["NOT_WHITELISTED"] },
           [Action.labelAdded m.msgId "NOT_WHITELISTED"]) ∧
    (m2 ∈ (listEmails (updateEmailState st.mailbox m.msgId ["NOT_WHITELISTED"]) base inc exc).result
      → m2.msgId ≠ m.msgId) := by
  constructor
  · unfold processOneMail
    rw [hp]
    simp only [Bool.false_eq_true, if_false]
    rw [if_neg hw]
  · intro hmem heq
    obtain ⟨L, hL, hall⟩ :=
      updateEmailState_single st.mailbox m.msgId "NOT_WHITELISTED" (by decide)
    have hres : resolveLabelName (updateEmailState st.mailbox m.msgId ["NOT_WHITELISTED"])
        "NOT_WHITELISTED" = some L := by
      unfold resolveLabelName
      rw [if_neg (by decide)]
      exact hL
    have hnot := listEmails_excluded _ base inc exc "NOT_WHITELISTED" L hexc hres m2 hmem
    have hm2msgs : m2 ∈ (updateEmailState st.mailbox m.msgId ["NOT_WHITELISTED"]).msgs := by
      unfold listEmails at hmem
      cases hinc : resolveInclude (updateEmailState st.mailbox m.msgId ["NOT_WHITELISTED"]) inc with
      | none => rw [hinc] at hmem; cases hmem
      | some ids => rw [hinc] at hmem; exact (List.mem_filter.mp hmem).1
    exact hnot (hall m2 hm2msgs heq)

/-- Witness for C8: an unauthorized sender's mail in a one-message
mailbox, then a listing that excludes NOT_WHITELISTED. -/
theorem claim_c8_witness :
    processOneMail
        ⟨⟨true, [], "", 10, ["boss@x.com"], "", 10⟩, [], ⟨[⟨"w1", ["INBOX"], "Eve <eve@evil.com>", "hi", none, false⟩], []⟩, false⟩
        ⟨"w1", ["INBOX"], "Eve <eve@evil.com>", "hi", none, false⟩ =
      .ok ({ (⟨⟨true, [], "", 10, ["boss@x.com"], "", 10⟩, [], ⟨[⟨"w1", ["INBOX"], "Eve <eve@evil.com>", "hi", none, false⟩], []⟩, false⟩ : PollState) with
             mailbox := updateEmailState ⟨[⟨"w1", ["INBOX"], "Eve <eve@evil.com>", "hi", none, false⟩], []⟩ "w1" ["NOT_WHITELISTED"] },
           [Action.labelAdded "w1" "NOT_WHITELISTED"]) ∧
    (⟨"w1", ["INBOX", "Label_NOT_WHITELISTED"], "Eve <eve@evil.com>", "hi", none, false⟩ ∈
        (listEmails (updateEmailState ⟨[⟨"w1", ["INBOX"], "Eve <eve@evil.com>", "hi", none, false⟩], []⟩ "w1" ["NOT_WHITELISTED"])
          (fun _ => true) [] ["NOT_WHITELISTED"]).result
      → (⟨"w1", ["INBOX", "Label_NOT_WHITELISTED"], "Eve <eve@evil.com>", "hi", none, false⟩ : MailMsg).msgId
          ≠ (⟨"w1", ["INBOX"], "Eve <eve@evil.com>", "hi", none, false⟩ : MailMsg).msgId) :=
  claim_c8_unauthorized_tagged
    ⟨⟨true, [], "", 10, ["boss@x.com"], "", 10⟩, [], ⟨[⟨"w1", ["INBOX"], "Eve <eve@evil.com>", "hi", none, false⟩], []⟩, false⟩
    ⟨"w1", ["INBOX"], "Eve <eve@evil.com>", "hi", none, false⟩
    (fun _ => true) [] ["NOT_WHITELISTED"]
    ⟨"w1", ["INBOX", "Label_NOT_WHITELISTED"], "Eve <eve@evil.com>", "hi", none, false⟩
    rfl (by decide) (by decide)

/-- A successfully parsed release time is a valid second-of-day. -/
theorem parseTimeHMS_lt (s : String) (T : Nat) (h : parseTimeHMS s = some T) :
    T < 86400 := by
  unfold parseTimeHMS at h
  split at h
  · rename_i hsplit
    split at h
    · rename_i hn mn sn hmatch
      split at h
      · rename_i hcond
        simp only [Bool.and_eq_true, decide_eq_true_eq] at hcond
        cases h
        omega
      · cases h
    · cases h
  · cases h

/-- The empty release string never parses. -/
theorem parseTimeHMS_empty : parseTimeHMS "" = none := rfl

/-- Some scan offset k between 1 and 7 reaches any wanted weekday
residue. -/
theorem exists_offset_mod (today i : Nat) (hi : i < 7) :
    ∃ k, 1 ≤ k ∧ k ≤ 7 ∧ (today + k) % 7 = i := by
  refine ⟨(i + 7 - today % 7 - 1) % 7 + 1, by omega, by omega, by omega⟩

/-- Day names repeat with period seven. -/
theorem dayName_add_seven (d : Nat) : dayName (d + 7) = dayName d := by
  unfold dayName
  congr 1
  omega

/-- Every weekday name admits an index below seven realizing it. -/
theorem mem_weekdays_index (d : String) (hd : d ∈ weekdays) :
    ∃ i, i < 7 ∧ dayName i = d := by
  simp only [weekdays, List.mem_cons, List.not_mem_nil, or_false] at hd
  rcases hd with h | h | h | h | h | h | h
  · exact ⟨0, by omega, by rw [h]; rfl⟩
  · exact ⟨1, by omega, by rw [h]; rfl⟩
  · exact ⟨2, by omega, by rw [h]; rfl⟩
  · exact ⟨3, by omega, by rw [h]; rfl⟩
  · exact ⟨4, by omega, by rw [h]; rfl⟩
  · exact ⟨5, by omega, by rw [h]; rfl⟩
  · exact ⟨6, by omega, by rw [h]; rfl⟩

/-- dayName only depends on the residue mod seven. -/
theorem dayName_mod (d : Nat) : dayName d = dayName (d % 7) := by
  unfold dayName
  congr 1
  omega

/-- What a successful scan returns: an offset between 1 and 7 whose day
is configured. -/
theorem findOffset_spec (today : Nat) (days : List String) (k : Nat)
    (h : findOffset today days = some k) :
    1 ≤ k ∧ k ≤ 7 ∧ dayName (today + k) ∈ days := by
  unfold findOffset at h
  have h1 := List.find?_some h
  have h2 := List.mem_of_find?_eq_some h
  rw [List.mem_range'_1] at h2
  refine ⟨by omega, by omega, ?_⟩
  exact of_decide_eq_true h1

/-- The scan succeeds whenever the configured set holds at least one
true weekday name. -/
theorem findOffset_isSome (today : Nat) (days : List String) (d : String)
    (hd : d ∈ days) (hw : d ∈ weekdays) :
    ∃ k, findOffset today days = some k := by
  obtain ⟨i, hi, hname⟩ := mem_weekdays_index d hw
  obtain ⟨k, hk1, hk7, hkmod⟩ := exists_offset_mod today i hi
  have hmem : k ∈ List.range' 1 7 := by
    rw [List.mem_range'_1]
    omega
  have hp : decide (dayName (today + k) ∈ days) = true := by
    rw [dayName_mod, hkmod, hname]
    exact decide_eq_true hd
  cases hfind : findOffset today days with
  | some k2 => exact ⟨k2, rfl⟩
  | none =>
      exfalso
      unfold findOffset at hfind
      have := List.find?_eq_none.mp hfind k hmem
      exact this hp

/-- C3 is confirmed: for a non-empty set of genuine weekday names and a
parsable release time, the computed fire instant is strictly after now,
at most seven days ahead, and lands on a configured weekday; and the
two Monday scenarios of the spec hold concretely. -/
theorem claim_c3_next_fire :
    (∀ (days : List String) (rts : String) (now : Instant) (T : Nat),
        now.sec < 86400 → days ≠ [] → (∀ d ∈ days, d ∈ weekdays) →
        parseTimeHMS rts = some T →
        ∃ t, findNextFire true days rts now = some t ∧
          now.toSec < t.toSec ∧ t.toSec ≤ now.toSec + 604800 ∧
          dayName t.day ∈ days) ∧
    findNextFire true ["Monday"] "12:00:00" ⟨0, 39600⟩ = some ⟨0, 43200⟩ ∧
    findNextFire true ["Monday"] "12:00:00" ⟨0, 46800⟩ = some ⟨7, 43200⟩ := by
  refine ⟨?_, by decide, by decide⟩
  intro days rts now T hsec hne hsub hT
  have hTlt : T < 86400 := parseTimeHMS_lt rts T hT
  have hrts : ¬(rts = "" ∨ days = []) := by
    rintro (h | h)
    · rw [h] at hT
      rw [parseTimeHMS_empty] at hT
      cases hT
    · exact hne h
  have hF : findNextFire true days rts now =
      (if dayName now.day ∈ days ∧ now.sec < T then some ⟨now.day, T⟩
       else
         match findOffset now.day days with
         | none => none
         | some k => some ⟨now.day + k, T⟩) := by
    unfold findNextFire
    rw [if_neg (by simp), if_neg hrts, hT]
  rw [hF]
  by_cases hbranch : dayName now.day ∈ days ∧ now.sec < T
  · rw [if_pos hbranch]
    refine ⟨⟨now.day, T⟩, rfl, ?_, ?_, hbranch.1⟩
    · unfold Instant.toSec
      simp only
      omega
    · unfold Instant.toSec
      simp only
      omega
  · rw [if_neg hbranch]
    obtain ⟨d, hd⟩ := List.exists_mem_of_ne_nil days hne
    obtain ⟨k, hk⟩ := findOffset_isSome now.day days d hd (hsub d hd)
    rw [hk]
    obtain ⟨hk1, hk7, hkday⟩ := findOffset_spec now.day days k hk
    refine ⟨⟨now.day + k, T⟩, rfl, ?_, ?_, hkday⟩
    · unfold Instant.toSec
      simp only
      have : now.day * 86400 + now.sec < (now.day + k) * 86400 := by
        have : (now.day + 1) * 86400 ≤ (now.day + k) * 86400 :=
          Nat.mul_le_mul_right _ (by omega)
        omega
      omega
    · unfold Instant.toSec
      simp only
      rcases Nat.lt_or_ge k 7 with hlt | hge
      · have : (now.day + k) * 86400 ≤ (now.day + 6) * 86400 :=
          Nat.mul_le_mul_right _ (by omega)
        omega
      · have hk7eq : k = 7 := by omega
        subst hk7eq
        have hmem : dayName now.day ∈ days := by
          rw [← dayName_add_seven]
          exact hkday
        have hTle : T ≤ now.sec := by
          by_contra hlt2
          exact hbranch ⟨hmem, by omega⟩
        have : (now.day + 7) * 86400 = now.day * 86400 + 604800 := by ring
        omega

/-- Witness for C3 on a concrete Tuesday-only schedule queried on a
Monday morning. -/
theorem claim_c3_next_fire_witness :
    ∃ t, findNextFire true ["Tuesday"] "08:30:00" ⟨0, 0⟩ = some t ∧
      (⟨0, 0⟩ : Instant).toSec < t.toSec ∧
      t.toSec ≤ (⟨0, 0⟩ : Instant).toSec + 604800 ∧
      dayName t.day ∈ ["Tuesday"] :=
  claim_c3_next_fire.1 ["Tuesday"] "08:30:00" ⟨0, 0⟩ 30600
    (by decide) (by decide) (by decide) (by decide)

end MailingList
